import Mathlib

/-!
# Verification of the tile-addressing and raster-windowing pipeline

Shallow embedding of `src/functions/handler.ts` (a serverless XYZ map-tile
server).  JavaScript `number` arithmetic on the coordinate path is modelled
exactly over `ℚ`; `parseInt` results are modelled as `Option ℤ` with `none`
standing for `NaN`; byte stores into a Node `Buffer` truncate modulo 256.
-/

namespace TileServer

/-- `const tileSize = 256` (handler.ts line 17). -/
def tileSize : ℚ := 256

/-- `const webMercatorExtent = 20037508.3427892` (handler.ts line 18). -/
def webMercatorExtent : ℚ := 20037508.3427892

/-- `getResolution` (handler.ts lines 172-174):
`(2 * webMercatorExtent) / (tileSize * Math.pow(2, z))`.
The zoom is an integer (the handler feeds it `parseInt(z)`), so
`Math.pow(2, z)` is the exact integer power `(2 : ℚ) ^ z`. -/
def getResolution (z : ℤ) : ℚ := (2 * webMercatorExtent) / (tileSize * (2 : ℚ) ^ z)

/-- A bounding box in projected (Web Mercator) units, in the order the
source returns it: `[minX, minY, maxX, maxY]`. -/
structure BBox where
  minX : ℚ
  minY : ℚ
  maxX : ℚ
  maxY : ℚ
  deriving Repr, DecidableEq

/-- `tileToWebMercator` (handler.ts lines 159-170): converts tile
coordinates `(x, y)` at zoom `z` to a Web Mercator bounding box.
```
const minX = x * tileSize * resolution - webMercatorExtent;
const maxY = webMercatorExtent - y * tileSize * resolution;
const maxX = (x + 1) * tileSize * resolution - webMercatorExtent;
const minY = webMercatorExtent - (y + 1) * tileSize * resolution;
return [minX, minY, maxX, maxY];
``` -/
def tileToWebMercator (x y : ℤ) (z : ℤ) : BBox :=
  let resolution := getResolution z
  { minX := x * tileSize * resolution - webMercatorExtent
    minY := webMercatorExtent - (y + 1) * tileSize * resolution
    maxX := (x + 1) * tileSize * resolution - webMercatorExtent
    maxY := webMercatorExtent - y * tileSize * resolution }

/-- JavaScript `Math.round`: rounds half-way cases towards `+∞`,
i.e. `Math.round(q) = ⌊q + 1/2⌋`. -/
def jsRound (q : ℚ) : ℤ := ⌊q + 1 / 2⌋

/-- The metadata the raster decode collaborator (`geotiff`) exposes on an
image: `getWidth()`, `getHeight()`, `getOrigin()` (top-left corner
`[originX, originY]`) and the per-pixel `resolution`.  The source falls back
to `webMercatorExtent * 2 / imageWidth` when `image.getResolution` is
absent; `resolution` here is the resolved value either way. -/
structure ImageInfo where
  width : ℕ
  height : ℕ
  originX : ℚ
  originY : ℚ
  resolution : ℚ
  deriving Repr, DecidableEq

/-- A pixel window into the raster, in the order the source returns it:
`[boundedPixelMinX, boundedPixelMinY, boundedPixelMaxX, boundedPixelMaxY]`,
i.e. (left, top, right, bottom). -/
structure PixelWindow where
  pixelMinX : ℤ
  pixelMinY : ℤ
  pixelMaxX : ℤ
  pixelMaxY : ℤ
  deriving Repr, DecidableEq

/-- `Math.max(0, Math.min(v, n))` — one bound of the clamping step in
`webMercatorToPixel` (handler.ts lines 150-153). -/
def clampTo (n : ℕ) (v : ℤ) : ℤ := max 0 (min v n)

/-- `webMercatorToPixel` (handler.ts lines 132-156): inverts the raster's
affine transform to map a Web Mercator bbox to pixel coordinates, rounding
with `Math.round` and clamping each bound independently to the image
dimensions.
```
const pixelMinX = Math.round((minX - imageMinX) / imageResolution);
const pixelMaxY = Math.round((imageMaxY - minY) / imageResolution);
const pixelMaxX = Math.round((maxX - imageMinX) / imageResolution);
const pixelMinY = Math.round((imageMaxY - maxY) / imageResolution);
...
return [boundedPixelMinX, boundedPixelMinY, boundedPixelMaxX, boundedPixelMaxY];
``` -/
def webMercatorToPixel (bbox : BBox) (image : ImageInfo) : PixelWindow :=
  let pixelMinX := jsRound ((bbox.minX - image.originX) / image.resolution)
  let pixelMaxY := jsRound ((image.originY - bbox.minY) / image.resolution)
  let pixelMaxX := jsRound ((bbox.maxX - image.originX) / image.resolution)
  let pixelMinY := jsRound ((image.originY - bbox.maxY) / image.resolution)
  { pixelMinX := clampTo image.width pixelMinX
    pixelMinY := clampTo image.height pixelMinY
    pixelMaxX := clampTo image.width pixelMaxX
    pixelMaxY := clampTo image.height pixelMaxY }

/-- The raster's own full projected extent, as the decode collaborator's
`image.getBoundingBox()` reports it for a top-left origin and square pixels:
`[originX, originY - height*res, originX + width*res, originY]`. -/
def imageBoundingBox (image : ImageInfo) : BBox :=
  { minX := image.originX
    minY := image.originY - image.height * image.resolution
    maxX := image.originX + image.width * image.resolution
    maxY := image.originY }

theorem clampTo_nonneg (n : ℕ) (v : ℤ) : 0 ≤ clampTo n v := le_max_left 0 _

theorem clampTo_le (n : ℕ) (v : ℤ) : clampTo n v ≤ n :=
  max_le (Int.ofNat_nonneg n) (min_le_right v n)

theorem clampTo_mono (n : ℕ) {v w : ℤ} (h : v ≤ w) : clampTo n v ≤ clampTo n w :=
  max_le_max le_rfl (min_le_min_right (n : ℤ) h)

theorem clampTo_of_le {n : ℕ} {v : ℤ} (h : (n : ℤ) ≤ v) : clampTo n v = n := by
  rw [clampTo, min_eq_right h, max_eq_right (Int.ofNat_nonneg n)]

theorem clampTo_zero (n : ℕ) : clampTo n 0 = 0 := by
  simp [clampTo]

theorem clampTo_natCast (n : ℕ) : clampTo n n = n := by
  simp [clampTo]

theorem jsRound_mono {q r : ℚ} (h : q ≤ r) : jsRound q ≤ jsRound r :=
  Int.floor_le_floor (by linarith)

theorem jsRound_intCast (n : ℤ) : jsRound n = n := by
  simp only [jsRound]
  rw [add_comm, Int.floor_add_int]
  norm_num

theorem jsRound_zero : jsRound 0 = 0 := by
  simpa using jsRound_intCast 0

theorem jsRound_natCast (n : ℕ) : jsRound (n : ℚ) = (n : ℤ) := by
  simpa using jsRound_intCast (n : ℤ)

end TileServer

open TileServer

/-- **C1** `tileToWebMercator` (the source's `tileToBBox`) returns exactly the
bounding box `minX = c·T·res − E`, `maxX = (c+1)·T·res − E`,
`maxY = E − r·T·res`, `minY = E − (r+1)·T·res` with
`res = 2·E / (T·2^z)` for the process-wide constants `T = tileSize`,
`E = webMercatorExtent`; and the row axis is inverted: increasing the row by
one strictly decreases the box's projected `maxY`. -/
theorem C1_tileToBBox_formula (z : ℕ) (c r : ℤ) :
    tileToWebMercator c r z =
      { minX := c * tileSize * ((2 * webMercatorExtent) / (tileSize * 2 ^ z))
                  - webMercatorExtent
        minY := webMercatorExtent
                  - (r + 1) * tileSize * ((2 * webMercatorExtent) / (tileSize * 2 ^ z))
        maxX := (c + 1) * tileSize * ((2 * webMercatorExtent) / (tileSize * 2 ^ z))
                  - webMercatorExtent
        maxY := webMercatorExtent
                  - r * tileSize * ((2 * webMercatorExtent) / (tileSize * 2 ^ z)) } ∧
    (tileToWebMercator c (r + 1) z).maxY < (tileToWebMercator c r z).maxY := by
  have hres : 0 < getResolution z := by
    simp only [getResolution, zpow_natCast]
    apply div_pos
    · norm_num [webMercatorExtent]
    · apply mul_pos
      · norm_num [tileSize]
      · positivity
  constructor
  · simp only [tileToWebMercator, getResolution, zpow_natCast]
  · have key : (tileToWebMercator c (r + 1) z).maxY
        = (tileToWebMercator c r z).maxY - tileSize * getResolution z := by
      simp only [tileToWebMercator]
      push_cast
      ring
    rw [key]
    have ht : 0 < tileSize * getResolution z :=
      mul_pos (by norm_num [tileSize]) hres
    linarith

/-- **C7** the per-pixel resolution halves exactly when the zoom increases by
one: `getResolution (z+1) = getResolution z / 2`. -/
theorem C7_resolution_halves (z : ℕ) :
    getResolution ((z : ℤ) + 1) = getResolution z / 2 := by
  simp only [getResolution]
  rw [zpow_add₀ (by norm_num : (2 : ℚ) ≠ 0)]
  field_simp
  ring

/-- **C8** every tile's bounding box has width and height equal to
`tileSize * resolution(z)`, and horizontally adjacent tiles `(c, r)` and
`(c+1, r)` share an edge exactly: the `maxX` of the first equals the `minX`
of the second. -/
theorem C8_box_size_and_adjacency (z : ℕ) (c r : ℤ) :
    (tileToWebMercator c r z).maxX - (tileToWebMercator c r z).minX
        = tileSize * getResolution z ∧
    (tileToWebMercator c r z).maxY - (tileToWebMercator c r z).minY
        = tileSize * getResolution z ∧
    (tileToWebMercator c r z).maxX = (tileToWebMercator (c + 1) r z).minX := by
  refine ⟨?_, ?_, ?_⟩ <;> · simp only [tileToWebMercator]; push_cast; ring

/-- **C2** `webMercatorToPixel` (the source's `bboxToPixelWindow`) applied to
the raster's own full projected extent yields exactly the pixel window
`(0, 0, rasterWidth, rasterHeight)`. -/
theorem C2_full_extent_window (image : ImageInfo) (hres : 0 < image.resolution) :
    webMercatorToPixel (imageBoundingBox image) image =
      { pixelMinX := 0, pixelMinY := 0,
        pixelMaxX := (image.width : ℤ), pixelMaxY := (image.height : ℤ) } := by
  have hne : image.resolution ≠ 0 := ne_of_gt hres
  have hW : (image.originX + image.width * image.resolution - image.originX)
      / image.resolution = (image.width : ℚ) := by
    field_simp
  have hH : (image.originY - (image.originY - image.height * image.resolution))
      / image.resolution = (image.height : ℚ) := by
    field_simp
  simp only [webMercatorToPixel, imageBoundingBox, sub_self, zero_div, hW, hH,
    jsRound_zero, jsRound_natCast, clampTo_zero, clampTo_natCast]


/-- Concrete 4×3 test raster: origin (0, 0), unit resolution. -/
def img4x3 : ImageInfo := { width := 4, height := 3, originX := 0, originY := 0, resolution := 1 }

/-- Concrete 10×10 test raster: origin (0, 0), unit resolution. -/
def img10x10 : ImageInfo := { width := 10, height := 10, originX := 0, originY := 0, resolution := 1 }

/-- Concrete 2×2 test raster: origin (0, 0), unit resolution. -/
def img2x2 : ImageInfo := { width := 2, height := 2, originX := 0, originY := 0, resolution := 1 }

/-- The degenerate bbox at the origin. -/
def bboxZero : BBox := { minX := 0, minY := 0, maxX := 0, maxY := 0 }

/-- A bbox lying entirely south-east of `img10x10`'s extent. -/
def bboxFar : BBox := { minX := 20, minY := -30, maxX := 30, maxY := -20 }

/-- A unit bbox lying entirely east of `img2x2`'s extent. -/
def bboxEast : BBox := { minX := 2, minY := 0, maxX := 3, maxY := 1 }

/-- Witness for C2 at the concrete raster `img4x3`. -/
theorem C2_full_extent_window_witness :
    (0 : ℚ) < img4x3.resolution ∧
    webMercatorToPixel (imageBoundingBox img4x3) img4x3 =
      { pixelMinX := 0, pixelMinY := 0, pixelMaxX := (img4x3.width : ℤ),
        pixelMaxY := (img4x3.height : ℤ) } :=
  ⟨one_pos, C2_full_extent_window img4x3 one_pos⟩

/-- **C10** for a well-formed bbox (`minX ≤ maxX`, `minY ≤ maxY`) and a
positive raster resolution, the returned window satisfies
`0 ≤ left ≤ right ≤ rasterWidth` and `0 ≤ top ≤ bottom ≤ rasterHeight`
(the source returns `[left, top, right, bottom]` as
`[boundedPixelMinX, boundedPixelMinY, boundedPixelMaxX, boundedPixelMaxY]`). -/
theorem C10_window_bounds (bbox : BBox) (image : ImageInfo)
    (hx : bbox.minX ≤ bbox.maxX) (hy : bbox.minY ≤ bbox.maxY)
    (hres : 0 < image.resolution) :
    0 ≤ (webMercatorToPixel bbox image).pixelMinX ∧
    (webMercatorToPixel bbox image).pixelMinX
      ≤ (webMercatorToPixel bbox image).pixelMaxX ∧
    (webMercatorToPixel bbox image).pixelMaxX ≤ (image.width : ℤ) ∧
    0 ≤ (webMercatorToPixel bbox image).pixelMinY ∧
    (webMercatorToPixel bbox image).pixelMinY
      ≤ (webMercatorToPixel bbox image).pixelMaxY ∧
    (webMercatorToPixel bbox image).pixelMaxY ≤ (image.height : ℤ) := by
  simp only [webMercatorToPixel]
  refine ⟨clampTo_nonneg _ _, ?_, clampTo_le _ _,
          clampTo_nonneg _ _, ?_, clampTo_le _ _⟩
  · apply clampTo_mono
    apply jsRound_mono
    apply (div_le_div_iff_of_pos_right hres).mpr
    linarith
  · apply clampTo_mono
    apply jsRound_mono
    apply (div_le_div_iff_of_pos_right hres).mpr
    linarith

/-- Witness for C10 at the degenerate bbox `bboxZero` over `img4x3`. -/
theorem C10_window_bounds_witness :
    (bboxZero.minX ≤ bboxZero.maxX ∧ bboxZero.minY ≤ bboxZero.maxY ∧
      (0 : ℚ) < img4x3.resolution) ∧
    (0 ≤ (webMercatorToPixel bboxZero img4x3).pixelMinX ∧
     (webMercatorToPixel bboxZero img4x3).pixelMinX
       ≤ (webMercatorToPixel bboxZero img4x3).pixelMaxX ∧
     (webMercatorToPixel bboxZero img4x3).pixelMaxX ≤ (img4x3.width : ℤ) ∧
     0 ≤ (webMercatorToPixel bboxZero img4x3).pixelMinY ∧
     (webMercatorToPixel bboxZero img4x3).pixelMinY
       ≤ (webMercatorToPixel bboxZero img4x3).pixelMaxY ∧
     (webMercatorToPixel bboxZero img4x3).pixelMaxY ≤ (img4x3.height : ℤ)) :=
  ⟨⟨le_rfl, le_rfl, one_pos⟩,
   C10_window_bounds bboxZero img4x3 le_rfl le_rfl one_pos⟩

/-- **C5, counterexample.** For the bbox `bboxFar`, which lies entirely
outside `img10x10`'s extent, `webMercatorToPixel` returns the zero-area
window (10, 10, 10, 10) as an ordinary value: its return type carries no
error channel, so no EmptyWindow condition is signalled. -/
theorem C5_counterexample :
    webMercatorToPixel bboxFar img10x10 =
      { pixelMinX := 10, pixelMinY := 10, pixelMaxX := 10, pixelMaxY := 10 } ∧
    (webMercatorToPixel bboxFar img10x10).pixelMaxX
      - (webMercatorToPixel bboxFar img10x10).pixelMinX = 0 := by
  constructor <;>
  · simp only [webMercatorToPixel, jsRound, clampTo, bboxFar, img10x10]
    norm_num

/-- **C5, amended.** When the requested bbox lies entirely east of the
raster's extent (and is well-formed, with positive resolution), the resolver
returns the clamped window with `left = right = rasterWidth` — a zero-width
window — silently, as an ordinary `PixelWindow` value; no EmptyWindow
condition is signalled anywhere in the source. -/
theorem C5_amended_zero_area_silent (bbox : BBox) (image : ImageInfo)
    (hres : 0 < image.resolution) (hx : bbox.minX ≤ bbox.maxX)
    (hout : image.originX + image.width * image.resolution ≤ bbox.minX) :
    (webMercatorToPixel bbox image).pixelMinX = (image.width : ℤ) ∧
    (webMercatorToPixel bbox image).pixelMaxX = (image.width : ℤ) := by
  have hWmin : ((image.width : ℚ)) ≤ (bbox.minX - image.originX) / image.resolution := by
    rw [le_div_iff₀ hres]
    linarith
  have hWmax : ((image.width : ℚ)) ≤ (bbox.maxX - image.originX) / image.resolution := by
    rw [le_div_iff₀ hres]
    nlinarith
  have h1 : (image.width : ℤ) ≤ jsRound ((bbox.minX - image.originX) / image.resolution) := by
    have h := jsRound_mono hWmin
    rwa [jsRound_natCast] at h
  have h2 : (image.width : ℤ) ≤ jsRound ((bbox.maxX - image.originX) / image.resolution) := by
    have h := jsRound_mono hWmax
    rwa [jsRound_natCast] at h
  simp only [webMercatorToPixel]
  exact ⟨clampTo_of_le h1, clampTo_of_le h2⟩

/-- Witness for the amended C5: `bboxEast` is entirely east of `img2x2`. -/
theorem C5_amended_zero_area_silent_witness :
    ((0 : ℚ) < img2x2.resolution ∧ bboxEast.minX ≤ bboxEast.maxX ∧
      img2x2.originX + img2x2.width * img2x2.resolution ≤ bboxEast.minX) ∧
    ((webMercatorToPixel bboxEast img2x2).pixelMinX = (img2x2.width : ℤ) ∧
     (webMercatorToPixel bboxEast img2x2).pixelMaxX = (img2x2.width : ℤ)) :=
  ⟨⟨one_pos, by norm_num [bboxEast], by norm_num [bboxEast, img2x2]⟩,
   C5_amended_zero_area_silent bboxEast img2x2 one_pos
     (by norm_num [bboxEast]) (by norm_num [bboxEast, img2x2])⟩

namespace TileServer

/-- One pixel-channel store into the Node `Buffer`: a number is truncated
modulo 256 by the `Uint8Array` assignment; a missing sample (`undefined`,
from indexing past the end of a band array) coerces to 0. -/
def jsByte : Option ℕ → ℕ
  | some n => n % 256
  | none => 0

/-- The failure mode of the compositing loop: when fewer than 3 bands are
available, the loop body's read `rasters[k][i]` evaluates `undefined[i]` and
throws, so no pixel buffer is produced. -/
inductive CompositeError where
  | insufficientBands
  deriving Repr, DecidableEq

/-- `rasters[k]`: the band array, or the insufficient-bands failure when
band `k` does not exist. -/
def bandAt (rasters : List (List ℕ)) (k : ℕ) : Except CompositeError (List ℕ) :=
  match rasters[k]? with
  | some b => Except.ok b
  | none => Except.error CompositeError.insufficientBands

/-- One iteration of the compositing loop (handler.ts lines 114-119): the
four bytes written at offsets `i*4 .. i*4+3` are
`[rasters[0][i], rasters[1][i], rasters[2][i], 0]` — red, green, blue, and
the fixed alpha constant `0` of handler.ts line 118. -/
def compositePixel (rasters : List (List ℕ)) (i : ℕ) :
    Except CompositeError (List ℕ) := do
  let b0 ← bandAt rasters 0
  let b1 ← bandAt rasters 1
  let b2 ← bandAt rasters 2
  pure [jsByte b0[i]?, jsByte b1[i]?, jsByte b2[i]?, 0]

/-- `convertRastersToPng` (handler.ts lines 105-129), compositing stage: the
interleaved RGBA `rgbaBuffer` of `width*height*4` bytes built by the loop.
The subsequent `sharp(...).png().toBuffer()` call is the external Tile
Encoder collaborator (spec §4.5) and is specified only at its boundary; the
value modelled here is the buffer the source hands to it. -/
def convertRastersToPng (rasters : List (List ℕ)) (width height : ℕ) :
    Except CompositeError (List ℕ) := do
  let pixels ← (List.range (width * height)).mapM (compositePixel rasters)
  pure pixels.flatten

theorem mapM_ok {ε α β : Type} (f : α → Except ε β) (g : α → β) (l : List α)
    (h : ∀ a ∈ l, f a = Except.ok (g a)) : l.mapM f = Except.ok (l.map g) := by
  induction l with
  | nil => rfl
  | cons a t ih =>
    rw [List.mapM_cons, h a (List.mem_cons_self a t),
      ih (fun x hx => h x (List.mem_cons_of_mem a hx))]
    rfl

theorem flatten_map_length {α β : Type} (g : α → List β) (c : ℕ)
    (h : ∀ a, (g a).length = c) (l : List α) :
    ((l.map g).flatten).length = c * l.length := by
  induction l with
  | nil => simp
  | cons a t ih =>
    simp only [List.map_cons, List.flatten_cons, List.length_append, h, ih,
      List.length_cons, Nat.mul_succ]
    ring

theorem flatten_map_get {α β : Type} (g : α → List β) (c : ℕ)
    (h : ∀ a, (g a).length = c) :
    ∀ (l : List α) (i j : ℕ) (a : α), l[i]? = some a → j < c →
      ((l.map g).flatten)[c * i + j]? = (g a)[j]? := by
  intro l
  induction l with
  | nil =>
    intro i j a hi
    simp at hi
  | cons x t ih =>
    intro i j a hi hj
    cases i with
    | zero =>
      have hx : x = a := by simpa using hi
      subst hx
      simp only [List.map_cons, List.flatten_cons, Nat.mul_zero, Nat.zero_add]
      exact List.getElem?_append_left (by rw [h]; exact hj)
    | succ n =>
      have hsplit : c * (n + 1) + j = (g x).length + (c * n + j) := by
        rw [h]
        ring
      rw [List.map_cons, List.flatten_cons, hsplit,
        List.getElem?_append_right (Nat.le_add_right _ _), Nat.add_sub_cancel_left]
      exact ih n j a (by simpa using hi) hj

end TileServer

/-- **C3** on a 3-band input whose band arrays each have at least
`width*height` samples, the compositing stage produces a buffer of exactly
`width*height*4` bytes in which byte `i*4+3` equals the alpha constant `0`
(handler.ts line 118) for every pixel index `i`. -/
theorem C3_composite_buffer (b0 b1 b2 : List ℕ) (w h : ℕ)
    (h0 : w * h ≤ b0.length) (h1 : w * h ≤ b1.length) (h2 : w * h ≤ b2.length) :
    ∃ buf, convertRastersToPng [b0, b1, b2] w h = Except.ok buf ∧
      buf.length = w * h * 4 ∧
      ∀ i, i < w * h → buf[i * 4 + 3]? = some 0 := by
  refine ⟨((List.range (w * h)).map
      (fun i => [jsByte b0[i]?, jsByte b1[i]?, jsByte b2[i]?, 0])).flatten, ?_, ?_, ?_⟩
  · have hmap := mapM_ok (compositePixel [b0, b1, b2])
        (fun i => [jsByte b0[i]?, jsByte b1[i]?, jsByte b2[i]?, 0])
        (List.range (w * h)) (fun i _ => rfl)
    unfold convertRastersToPng
    rw [hmap]
    rfl
  · rw [flatten_map_length
      (fun i => [jsByte b0[i]?, jsByte b1[i]?, jsByte b2[i]?, 0]) 4
      (fun _ => rfl), List.length_range]
    ring
  · intro i hi
    have h34 : i * 4 + 3 = 4 * i + 3 := by ring
    rw [h34, flatten_map_get
      (fun i => [jsByte b0[i]?, jsByte b1[i]?, jsByte b2[i]?, 0]) 4
      (fun _ => rfl) (List.range (w * h)) i 3 i
      (List.getElem?_range hi) (by omega)]
    rfl

/-- Witness for C3: bands [10,20], [30,40], [50,60] composited into a 2×1
buffer. -/
theorem C3_composite_buffer_witness :
    (2 * 1 ≤ ([10, 20] : List ℕ).length ∧ 2 * 1 ≤ ([30, 40] : List ℕ).length ∧
      2 * 1 ≤ ([50, 60] : List ℕ).length) ∧
    (∃ buf, convertRastersToPng [[10, 20], [30, 40], [50, 60]] 2 1 = Except.ok buf ∧
      buf.length = 2 * 1 * 4 ∧ ∀ i, i < 2 * 1 → buf[i * 4 + 3]? = some 0) :=
  ⟨⟨by decide, by decide, by decide⟩,
   C3_composite_buffer [10, 20] [30, 40] [50, 60] 2 1 (by decide) (by decide) (by decide)⟩

/-- **C6** when fewer than 3 bands are available (and the tile has at least
one pixel), the compositing stage fails — the loop body's read of the
missing band throws before any buffer can be produced — rather than
guessing a grayscale expansion. -/
theorem C6_insufficient_bands (rasters : List (List ℕ)) (w h : ℕ)
    (hlen : rasters.length < 3) (hpos : 0 < w * h) :
    convertRastersToPng rasters w h
      = Except.error CompositeError.insufficientBands := by
  have hfail : compositePixel rasters 0
      = Except.error CompositeError.insufficientBands := by
    rcases rasters with _ | ⟨a, _ | ⟨b, _ | ⟨c, t⟩⟩⟩
    · rfl
    · rfl
    · rfl
    · simp only [List.length_cons] at hlen
      omega
  obtain ⟨n, hn⟩ : ∃ n, w * h = n + 1 := ⟨w * h - 1, by omega⟩
  have hrange : (List.range (w * h)).mapM (compositePixel rasters)
      = Except.error CompositeError.insufficientBands := by
    rw [hn, List.range_succ_eq_map, List.mapM_cons, hfail]
    rfl
  unfold convertRastersToPng
  rw [hrange]
  rfl

/-- Witness for C6: two 1-sample bands into a 1×1 tile. -/
theorem C6_insufficient_bands_witness :
    (([[10], [20]] : List (List ℕ)).length < 3 ∧ 0 < 1 * 1) ∧
    convertRastersToPng [[10], [20]] 1 1
      = Except.error CompositeError.insufficientBands :=
  ⟨⟨by decide, by decide⟩, C6_insufficient_bands [[10], [20]] 1 1 (by decide) (by decide)⟩

namespace TileServer

/-- The whitespace characters ECMAScript `parseInt` skips before the
number. -/
def isSpaceJS (c : Char) : Bool :=
  c == ' ' || c == '\t' || c == '\n' || c == '\r' || c == '\x0b' || c == '\x0c'

/-- Value of a digit character in radix `b` (`0`-`9`, `a`-`z`, `A`-`Z`),
`none` when the character is not a digit of that radix. -/
def digitValue (b : ℕ) (c : Char) : Option ℕ :=
  let v : Option ℕ :=
    if c.isDigit then some (c.toNat - 48)
    else if 'a' ≤ c && c ≤ 'z' then some (c.toNat - 87)
    else if 'A' ≤ c && c ≤ 'Z' then some (c.toNat - 55)
    else none
  match v with
  | some d => if d < b then some d else none
  | none => none

/-- Consume the longest prefix of radix-`b` digits, accumulating the value;
the accumulator stays `none` (`NaN`) when no digit was consumed. -/
def parseDigits (b : ℕ) : List Char → Option ℕ → Option ℕ
  | [], acc => acc
  | c :: cs, acc =>
    match digitValue b c with
    | some d => parseDigits b cs (some (acc.getD 0 * b + d))
    | none => acc

/-- ECMAScript `parseInt(string)` as the handler calls it (no radix
argument): skip leading whitespace, read an optional sign, detect an
optional `0x`/`0X` hex prefix, then take the longest prefix of digits in
the detected radix; the result is `NaN` (`none`) when no digit was
consumed. -/
def parseIntJS (s : String) : Option ℤ :=
  let cs := s.data.dropWhile isSpaceJS
  let signAndRest : ℤ × List Char :=
    match cs with
    | '-' :: rest => (-1, rest)
    | '+' :: rest => (1, rest)
    | _ => (1, cs)
  let baseAndRest : ℕ × List Char :=
    match signAndRest.2 with
    | '0' :: 'x' :: rest => (16, rest)
    | '0' :: 'X' :: rest => (16, rest)
    | _ => (10, signAndRest.2)
  match parseDigits baseAndRest.1 baseAndRest.2 none with
  | some n => some (signAndRest.1 * n)
  | none => none

/-- `parseInt` applied to a possibly-absent path parameter: a missing
parameter destructures to `undefined` and `parseInt(undefined)` is `NaN`. -/
def parseIntOpt : Option String → Option ℤ
  | some s => parseIntJS s
  | none => none

/-- The `z`/`x`/`y` path parameters as the transport hands them over; each
may be absent. -/
structure PathParams where
  z : Option String
  x : Option String
  y : Option String
  deriving Repr, DecidableEq

/-- The slice of an API Gateway event the handler reads:
`event.pathParameters`, which may be `null`. -/
structure APIGatewayProxyEvent where
  pathParameters : Option PathParams
  deriving Repr, DecidableEq

/-- The slice of the handler's response the claims are about: the status
code.  Headers, CORS and the base64 body framing are the transport
collaborator's concern (spec §1) and carry no decision logic: the source
builds exactly one 200-response shape in the `try` and one 500-response
shape in the `catch`. -/
structure HandlerResponse where
  statusCode : ℕ
  deriving Repr, DecidableEq

/-- What `fetchTiffData` resolves to on success (handler.ts lines 8-11). -/
structure TiffData where
  buffer : List ℕ
  contentType : String
  deriving Repr, DecidableEq

/-- A bounding box whose components may individually be `NaN` (`none`):
when only some of `parseInt(x)`, `parseInt(y)`, `parseInt(z)` are `NaN`,
`tileToWebMercator` produces a *partially* `NaN` tuple, since each bound
depends only on some of the inputs. -/
structure BBoxJS where
  minX : Option ℚ
  minY : Option ℚ
  maxX : Option ℚ
  maxY : Option ℚ
  deriving Repr, DecidableEq

/-- `NaN`-strict application of a binary arithmetic expression: the result
is `NaN` exactly when either operand is. -/
def nanStrict2 (f : ℤ → ℚ → ℚ) : Option ℤ → Option ℚ → Option ℚ
  | some a, some r => some (f a r)
  | _, _ => none

/-- `tileToWebMercator(parseInt(x), parseInt(y), parseInt(z))` on
possibly-`NaN` arguments, component by component: `resolution` is `NaN`
exactly when `z` is (`Math.pow(2, NaN)` is `NaN`); `minX`/`maxX` are `NaN`
exactly when `x` or the resolution is; `minY`/`maxY` are `NaN` exactly when
`y` or the resolution is.  So a `NaN` zoom makes all four bounds `NaN`,
while a `NaN` column (resp. row) alone leaves the `y` (resp. `x`) bounds
finite. -/
def tileToWebMercatorJS (x y z : Option ℤ) : BBoxJS :=
  let resolution : Option ℚ := Option.map getResolution z
  { minX := nanStrict2 (fun x r => x * tileSize * r - webMercatorExtent) x resolution
    minY := nanStrict2 (fun y r => webMercatorExtent - (y + 1) * tileSize * r) y resolution
    maxX := nanStrict2 (fun x r => (x + 1) * tileSize * r - webMercatorExtent) x resolution
    maxY := nanStrict2 (fun y r => webMercatorExtent - y * tileSize * r) y resolution }

theorem nanStrict2_none_left (f : ℤ → ℚ → ℚ) (r : Option ℚ) :
    nanStrict2 f none r = none := by
  cases r <;> rfl

theorem nanStrict2_none_right (f : ℤ → ℚ → ℚ) (a : Option ℤ) :
    nanStrict2 f a none = none := by
  cases a <;> rfl

/-- On fully-parsed parameters the `NaN`-aware bbox agrees with
`tileToWebMercator` in every component. -/
theorem tileToWebMercatorJS_eq (x y z : ℤ) :
    tileToWebMercatorJS (some x) (some y) (some z) =
      { minX := some (tileToWebMercator x y z).minX
        minY := some (tileToWebMercator x y z).minY
        maxX := some (tileToWebMercator x y z).maxX
        maxY := some (tileToWebMercator x y z).maxY } := rfl

/-- The body of the handler's `try` block (handler.ts lines 24-50):
destructure the path parameters (throwing a `TypeError` when
`pathParameters` is `null`), parse them (`NaN` on failure — no validation),
compute the bbox, and await `fetchTiffData`.  The awaited collaborator —
signed-URL issuance, `geotiff` decode, compositing, `sharp` encode — is the
`fetchTiffData` argument; any exception it throws is its `Except.error`. -/
def tilePipeline (fetchTiffData : BBoxJS → Except String TiffData) :
    Option PathParams → Except String HandlerResponse
  | none => Except.error "TypeError: cannot destructure pathParameters of null"
  | some params =>
    match fetchTiffData (tileToWebMercatorJS (parseIntOpt params.x)
        (parseIntOpt params.y) (parseIntOpt params.z)) with
    | Except.ok _ => Except.ok { statusCode := 200 }
    | Except.error e => Except.error e

/-- The exported handler `tile` (handler.ts lines 20-63): the whole pipeline
runs inside `try { ... } catch (error) { return { statusCode: 500, ... } }`,
so every failure becomes a returned 500 response. -/
def tile (fetchTiffData : BBoxJS → Except String TiffData)
    (event : APIGatewayProxyEvent) : HandlerResponse :=
  match tilePipeline fetchTiffData event.pathParameters with
  | Except.ok r => r
  | Except.error _ => { statusCode := 500 }

/-- A fetch collaborator that fails, as `geotiff.readRasters` does when
handed a `NaN` window. -/
def failingFetch : BBoxJS → Except String TiffData :=
  fun _ => Except.error "readRasters failed"

/-- An event whose zoom path parameter does not parse as an integer. -/
def eventBadZoom : APIGatewayProxyEvent :=
  { pathParameters := some { z := some "abc", x := some "1", y := some "2" } }

end TileServer

/-- **C9** the handler returns a response for every event and every behaviour
of the awaited collaborator — nothing escapes the `try`/`catch` — and the
returned status code is always 200 (success) or 500 (any failure, malformed
addresses included). -/
theorem C9_always_200_or_500 (fetch : BBoxJS → Except String TiffData)
    (event : APIGatewayProxyEvent) :
    (tile fetch event).statusCode = 200 ∨ (tile fetch event).statusCode = 500 := by
  cases hpp : event.pathParameters with
  | none => right; simp [tile, tilePipeline, hpp]
  | some params =>
    cases hf : fetch (tileToWebMercatorJS (parseIntOpt params.x)
        (parseIntOpt params.y) (parseIntOpt params.z)) with
    | ok td => left; simp [tile, tilePipeline, hpp, hf]
    | error e => right; simp [tile, tilePipeline, hpp, hf]

/-- **C4, counterexample.** For the concrete event with `z = "abc"` (not an
integer) and the collaborator failing on the resulting `NaN` window, the
handler returns status 500 — a generic server-side failure, not a
client-side (4xx) BadAddress failure as the claim requires. -/
theorem C4_counterexample :
    parseIntOpt (some "abc") = none ∧
    (tile failingFetch eventBadZoom).statusCode = 500 ∧
    ¬(400 ≤ (tile failingFetch eventBadZoom).statusCode ∧
      (tile failingFetch eventBadZoom).statusCode < 500) := by
  refine ⟨rfl, rfl, ?_⟩
  intro hcontra
  have h500 : (tile failingFetch eventBadZoom).statusCode = 500 := rfl
  omega

/-- **C4, amended.** A request in which the zoom, column or row does not
parse as an integer is not validated: the resulting `NaN` leaves at least
one bound of the computed bbox `NaN`, that window reaches the raster-fetch
stage, and when that stage fails on a `NaN`-bounded window the handler
returns a generic server-side 500 — never a BadAddress/client-side
failure — while no unhandled exception propagates past the pipeline
boundary (`tile` is total). -/
theorem C4_amended_nan_address_is_500 (fetch : BBoxJS → Except String TiffData)
    (event : APIGatewayProxyEvent) (params : PathParams) (msg : String)
    (hpp : event.pathParameters = some params)
    (hbad : parseIntOpt params.z = none ∨ parseIntOpt params.x = none ∨
      parseIntOpt params.y = none)
    (hf : ∀ bb : BBoxJS,
      bb.minX = none ∨ bb.minY = none ∨ bb.maxX = none ∨ bb.maxY = none →
      fetch bb = Except.error msg) :
    (tile fetch event).statusCode = 500 := by
  have hnan : (tileToWebMercatorJS (parseIntOpt params.x) (parseIntOpt params.y)
        (parseIntOpt params.z)).minX = none ∨
      (tileToWebMercatorJS (parseIntOpt params.x) (parseIntOpt params.y)
        (parseIntOpt params.z)).minY = none ∨
      (tileToWebMercatorJS (parseIntOpt params.x) (parseIntOpt params.y)
        (parseIntOpt params.z)).maxX = none ∨
      (tileToWebMercatorJS (parseIntOpt params.x) (parseIntOpt params.y)
        (parseIntOpt params.z)).maxY = none := by
    rcases hbad with hz | hx | hy
    · left
      simp [tileToWebMercatorJS, hz, nanStrict2_none_right]
    · left
      simp [tileToWebMercatorJS, hx, nanStrict2_none_left]
    · right; left
      simp [tileToWebMercatorJS, hy, nanStrict2_none_left]
  simp [tile, tilePipeline, hpp, hf _ hnan]

/-- Witness for the amended C4 at the concrete bad-zoom event, with the
collaborator failing on every window (in particular every `NaN`-bounded
one). -/
theorem C4_amended_nan_address_is_500_witness :
    (eventBadZoom.pathParameters
        = some { z := some "abc", x := some "1", y := some "2" } ∧
      parseIntOpt (some "abc") = none) ∧
    (tile failingFetch eventBadZoom).statusCode = 500 :=
  ⟨⟨rfl, rfl⟩,
   C4_amended_nan_address_is_500 failingFetch eventBadZoom
     { z := some "abc", x := some "1", y := some "2" } "readRasters failed"
     rfl (Or.inl rfl) (fun _ _ => rfl)⟩
